import Mathlib

/-
Verification of the CAPTCHA resolution engine of selenium-browser-manager
(src/browser_manager.py) via a shallow embedding.

The browser document is modelled as a snapshot (Dom): for a context and a
selector, Dom.find lists the elements a bounded presence wait locates (an
empty list means the wait expires), Dom.source is page_source, Dom.stale
marks frame handles whose switch_to.frame call raises.  Mutation of the
page by clicks, typed keys and settle sleeps is delegated to an external
environment (Env.step); the audio transcription collaborator, too, lives
in Env.  Session state (S) carries the current document context, the
mutable timeout, the timeout the WebDriverWait object was built with, and
a ghost trace of externally observable events (transcription attempts,
keystrokes, clicks) that the code itself never reads.

Fallible Python code is modelled as functions returning
Except PyErr _ x S: an exception carries the state at raise time, as in
Python.  The unbounded while loop of resolveCaptcha takes a fuel
parameter; exhausting the fuel is reported as a distinct outcome, never
as a result the Python code could produce.
-/

namespace SBM

/-! ## Python string primitives used by the code -/

/-- A regex word character for the re word-boundary semantics. -/
def isWordChar (c : Char) : Bool := c.isAlphanum || c == '_'

/-- Outcome of matching a literal pattern against the head of a string:
either no match, or a match together with the character that follows it. -/
inductive ConsumeRes where
  | noMatch
  | matched (next : Option Char)
deriving DecidableEq

/-- Match the literal pattern against the start of the text, reporting the
character following the matched region. -/
def consume : List Char → List Char → ConsumeRes
  | [], [] => .matched none
  | [], c :: _ => .matched (some c)
  | _ :: _, [] => .noMatch
  | p :: ps, c :: cs => if p == c then consume ps cs else .noMatch

def consumed : ConsumeRes → Bool
  | .noMatch => false
  | .matched _ => true

def optWord : Option Char → Bool
  | some c => isWordChar c
  | none => false

def lastChar (d : Char) : List Char → Char
  | [] => d
  | c :: cs => lastChar c cs

/-- Does the pattern, wrapped in word boundaries as in the regex the frame
scanner builds, match at this position?  prev is the character before the
position (none at the start of the text). -/
def boundaryHit (pat : List Char) (prev : Option Char) (cs : List Char) : Bool :=
  match pat with
  | [] => false
  | p :: ps =>
    match consume (p :: ps) cs with
    | .noMatch => false
    | .matched nxt =>
        (optWord prev != optWord (some p)) && (optWord (some (lastChar p ps)) != optWord nxt)

/-- re.search of a word-boundary-wrapped literal pattern, scanning every
position of the text. -/
def searchChars (pat : List Char) : Option Char → List Char → Bool
  | prev, [] => boundaryHit pat prev []
  | prev, c :: cs => boundaryHit pat prev (c :: cs) || searchChars pat (some c) cs

/-- The regex search performed by _find_iframe_with_contained_class: a word
boundary, the marker alternatives, a word boundary.  Every marker the code
passes is a regex-literal string (letters, digits, hyphens, one hash), so
literal matching is exact. -/
def regexClassSearch (pats : List String) (src : String) : Bool :=
  pats.any fun p => searchChars p.toList none src.toList

def strHasAt (pat : List Char) : List Char → Bool
  | [] => consumed (consume pat [])
  | c :: cs => consumed (consume pat (c :: cs)) || strHasAt pat cs

/-- The Python substring operator: pat in text. -/
def strContains (text pat : String) : Bool := strHasAt pat.toList text.toList

/-- Python str.lower, character by character (the library String.toLower
computes the same string but by a byte-position recursion that does not
reduce definitionally). -/
def pyLower (s : String) : String := String.mk (s.toList.map Char.toLower)

/-! ## Data model -/

/-- A located DOM node: a WebElement handle together with what the code
reads off it (text, the href attribute, displayed/enabled flags). -/
structure Elem where
  eid : Nat
  text : String
  href : Option String
  displayed : Bool
  enabled : Bool
deriving DecidableEq

/-- The current document context of the session. -/
inductive Ctx where
  | top
  | frame (f : Elem)
deriving DecidableEq

/-- Snapshot of the browser document as observed through bounded waits. -/
structure Dom where
  find : Ctx → String → List Elem
  source : Ctx → String
  stale : Elem → Bool

/-- Ghost trace of externally observable actions. -/
inductive Ev where
  | transcribed (url : String)
  | sent (eid : Nat) (text : String)
  | clicked (eid : Nat)
deriving DecidableEq

/-- Session state: live document, current context, self._timeout, the
timeout self._wait was built with, and the ghost event trace. -/
structure S where
  dom : Dom
  ctx : Ctx
  timeout : Int
  waitTimeout : Int
  events : List Ev

/-- Python exceptions distinguished by the code under verification. -/
inductive PyErr where
  | timeout
  | typeErr
  | valueErr
  | attributeErr
  | stale
  | other (msg : String)
deriving DecidableEq

/-- Page-mutating actions whose effect on the document is external. -/
inductive Act where
  | click (eid : Nat)
  | keys (eid : Nat) (text : String)
  | settle
deriving DecidableEq

/-- External world: how the document reacts to actions, and the audio
transcription collaborator (which may raise). -/
structure Env where
  step : Dom → Act → Dom
  transcribe : String → Except PyErr String

/-- The timeout property setter applied to an int: store it and rebuild
the wait object with the new value. -/
def setTO (s : S) (v : Int) : S := { s with timeout := v, waitTimeout := v }

def withCtx (s : S) (c : Ctx) : S := { s with ctx := c }

def stepDom (env : Env) (a : Act) (s : S) : S := { s with dom := env.step s.dom a }

def exceptOk {α : Type} : Except PyErr α → Bool
  | .ok _ => true
  | .error _ => false

/-! ## Selector strings of the source (the locals of resolveCaptcha) -/

def iframe_selector : String := "iframe"
def google_v2 : String := "google-v2"
def reCaptcha_checkbox_class_name : String := "recaptcha-checkbox-unchecked"
def reCaptcha_audio_button_id_name : String := "recaptcha-audio-button"
def audio_file_link_class_name : String := "rc-audiochallenge-tdownload-link"
def reCaptcha_checkbox_selector : String := ".recaptcha-checkbox-unchecked"
def reCaptcha_audio_button_selector : String := "#recaptcha-audio-button"
def reCaptcha_audio_button_alt_selector : String := "#recaptcha-anchor"
def audio_file_link_selector : String := ".rc-audiochallenge-tdownload-link"
def reCaptcha_modal_header_selector : String := ".rc-doscaptcha-header-text"
def reCaptcha_answer_text_input_selector : String := "#audio-response"
def banned_phrases : List String := [ "try again later", "vuelve a intentarlo" ]
def invalid_locator_msg : String := "invalid locator"
/-- selenium Keys.ENTER, the private-use codepoint U+E007. -/
def keys_ENTER : String := String.mk [Char.ofNat 0xE007]

/-! ## Element interaction layer -/

inductive SelKind where
  | xpath
  | css
deriving DecidableEq

/-- _get_selector_type: a leading // means an XPATH query, any other
non-space leading character means a CSS query; otherwise the function
falls off its if chain and yields Python None. -/
def _get_selector_type (sel : String) : Option SelKind :=
  match sel.toList with
  | [] => none
  | [c] => if !c.isWhitespace then some .css else none
  | c1 :: c2 :: _ =>
      if c1 == '/' && c2 == '/' then some .xpath
      else if !c1.isWhitespace then some .css else none

/-- Result of BrowserManager.get: a single element, a list, or the
implicit Python None produced when exactly one element matched and a list
was requested (no branch of the if chain returns in that case). -/
inductive GetRes where
  | one (e : Elem)
  | many (es : List Elem)
  | pyNone
deriving DecidableEq

/-- BrowserManager.get.  The presence wait raises TimeoutException when
nothing matches (the handler logs and re-raises it); one match without
results_in_list returns the element; more than one match returns the
list; exactly one match with results_in_list falls off the if chain and
returns Python None. -/
def get (sel : String) (results_in_list : Bool) (s : S) : Except PyErr GetRes × S :=
  match _get_selector_type sel with
  | none => (.error (.other invalid_locator_msg), s)
  | some _ =>
    match s.dom.find s.ctx sel, results_in_list with
    | [], _ => (.error .timeout, s)
    | [e], false => (.ok (.one e), s)
    | [_], true => (.ok .pyNone, s)
    | e1 :: e2 :: es, _ => (.ok (.many (e1 :: e2 :: es)), s)

/-- switch_to.frame.  A stale handle raises; per the WebDriver standard a
None frame reference selects the top-level browsing context. -/
def switchFrame (fr : Option Elem) (s : S) : Except PyErr Unit × S :=
  match fr with
  | none => (.ok (), withCtx s .top)
  | some f => if s.dom.stale f then (.error .stale, s) else (.ok (), withCtx s (.frame f))

/-- element.click_safe() with an AttributeError fallback to
element.click().  A single element handle is clicked (stepping the
document); a list value has neither method, so the fallback raises
AttributeError as well and it escapes. -/
def clickGot (env : Env) (g : GetRes) (s : S) : Except PyErr Unit × S :=
  match g with
  | .one e =>
      let s2 := stepDom env (.click e.eid) s
      (.ok (), { s2 with events := s2.events ++ [ Ev.clicked e.eid ] })
  | _ => (.error .attributeErr, s)

/-- element.send_keys on the value returned by get: a list value has no
send_keys method, so AttributeError escapes. -/
def sendKeysGot (env : Env) (g : GetRes) (t : String) (s : S) : Except PyErr Unit × S :=
  match g with
  | .one e =>
      let s2 := stepDom env (.keys e.eid t) s
      (.ok (), { s2 with events := s2.events ++ [ Ev.sent e.eid t ] })
  | _ => (.error .attributeErr, s)

/-- The call BrowserManager._audio_url_to_text(url) as seen from the
resolution loop: an external collaborator that may raise.  The ghost
event records that a transcription was attempted. -/
def transcribeCall (env : Env) (url : String) (s : S) : Except PyErr String × S :=
  let s2 := { s with events := s.events ++ [ Ev.transcribed url ] }
  match env.transcribe url with
  | .ok t => (.ok t, s2)
  | .error e => (.error e, s2)

/-! ## Frame scanner -/

/-- The loop of _find_iframe_with_contained_class over the reversed
iframe list: switch to top, switch into the candidate (a failing switch
skips it), regex-search page_source; on a hit switch back to the
top-level context and return the frame; after exhausting the list switch
to top and return None. -/
def scanFrames (pats : List String) : List Elem → S → Except PyErr (Option Elem) × S
  | [], s => (.ok none, withCtx s .top)
  | f :: rest, s =>
      let s1 := withCtx s .top
      if s1.dom.stale f then scanFrames pats rest s1
      else
        let s2 := withCtx s1 (.frame f)
        if regexClassSearch pats (s2.dom.source (.frame f)) then
          (.ok (some f), withCtx s2 .top)
        else scanFrames pats rest s2

/-- _find_iframe_with_contained_class.  Switches to the top-level
context, lists iframe elements via get with results_in_list True, and
iterates them in reverse discovery order.  A TimeoutException from the
listing restores top and returns None.  When exactly one iframe exists,
get yields Python None and reversed(None) raises TypeError. -/
def _find_iframe_with_contained_class (markers : Sum String (List String)) (s : S) :
    Except PyErr (Option Elem) × S :=
  let pats := match markers with
    | .inl c => [c]
    | .inr cs => cs
  let s1 := withCtx s .top
  match get iframe_selector true s1 with
  | (.error .timeout, s2) => (.ok none, withCtx s2 .top)
  | (.error e, s2) => (.error e, s2)
  | (.ok (.many frames), s2) => scanFrames pats frames.reverse s2
  | (.ok _, s2) => (.error .typeErr, s2)

/-! ## Timeout-scoped waits -/

def truthyOpt : Option Int → Bool
  | none => false
  | some t => t != 0

/-- EC.visibility_of_element_located: the first element the locator
finds, once displayed; in a snapshot the wait times out unless the first
match is displayed. -/
def visibleLocated (s : S) (sel : String) : Except PyErr Elem :=
  match _get_selector_type sel with
  | none => .error (.other invalid_locator_msg)
  | some _ =>
    match s.dom.find s.ctx sel with
    | [] => .error .timeout
    | e :: _ => if e.displayed then .ok e else .error .timeout

/-- is_element_interactable: snapshot the timeout, install the override
when the argument is truthy, wait for visibility; a timeout yields False;
the finally clause restores the prior timeout on every exit. -/
def is_element_interactable (sel : String) (tmo : Option Int) (s : S) :
    Except PyErr Bool × S :=
  let original_timeout := s.timeout
  let s1 := if truthyOpt tmo then setTO s (tmo.getD 0) else s
  let body : Except PyErr Bool :=
    match visibleLocated s1 sel with
    | .error .timeout => .ok false
    | .error e => .error e
    | .ok element => .ok (element.displayed && element.enabled)
  (body, setTO s1 original_timeout)

/-- wait_until_element_has_gone: snapshot the timeout, install the
override when truthy, wait until no element matches; the success branch
and the TimeoutException branch both restore the prior timeout (the
latter re-raises), but an exception that is not a TimeoutException
escapes without the restore. -/
def wait_until_element_has_gone (sel : String) (tmo : Option Int) (s : S) :
    Except PyErr Unit × S :=
  let original_timeout := s.timeout
  let s1 := if truthyOpt tmo then setTO s (tmo.getD 0) else s
  match _get_selector_type sel with
  | none => (.error (.other invalid_locator_msg), s1)
  | some _ =>
    if (s1.dom.find s1.ctx sel).isEmpty then (.ok (), setTO s1 original_timeout)
    else (.error .timeout, setTO s1 original_timeout)

/-! ## CAPTCHA resolution state machine -/

/-- What one execution of the ban-notice block (the body of the
"if iframe_audio_link is None" branch) does: return False from
resolveCaptcha, or fall through to the rest of the loop body. -/
inductive BanOut where
  | retFalse
  | fall
deriving DecidableEq

/-- The ban-notice block of the resolution loop: read the modal header; a
TimeoutException restores the timeout and returns False; a single element
whose lowercased text contains a banned phrase restores the timeout and
returns False; any other value (a list of matches, or a non-matching
text) falls through. -/
def banCheck (orig : Int) (s : S) : Except PyErr BanOut × S :=
  match get reCaptcha_modal_header_selector false s with
  | (.error .timeout, s1) => (.ok .retFalse, setTO s1 orig)
  | (.error e, s1) => (.error e, s1)
  | (.ok ban_notification, s1) =>
    match ban_notification with
    | .one e =>
        let are_we_banned := banned_phrases.any fun phrase => strContains (pyLower e.text) phrase
        if are_we_banned then (.ok .retFalse, setTO s1 orig) else (.ok .fall, s1)
    | _ => (.ok .fall, s1)

/-- How one run of the while-loop body ends: a return statement inside the
loop, the break statement (control continues after the loop), or the
modelling artifact of an exhausted iteration budget. -/
inductive LoopRes where
  | ret (b : Bool)
  | brokeOut
  | fuelOut
deriving DecidableEq

/-- The audio-round while loop of resolveCaptcha.  Scan for a frame whose
source holds the audio-link marker; when none is found run the ban-notice
block, which either returns False or falls through; then switch into the
found frame (switching on Python None selects the top-level context),
read the audio link and its href (a missing href returns False after a
restore), transcribe (empty text returns False after a restore), type the
answer plus ENTER, settle, re-scan, and either switch into the newly
found frame and iterate or break. -/
def captchaLoop (env : Env) (original_timeout_value : Int) :
    Nat → S → Except PyErr LoopRes × S
  | 0, s => (.ok .fuelOut, s)
  | Nat.succ n, s =>
    match _find_iframe_with_contained_class (.inl audio_file_link_class_name) s with
    | (.error e, s1) => (.error e, s1)
    | (.ok iframe_audio_link, s1) =>
      match (if iframe_audio_link = none then banCheck original_timeout_value s1
             else (.ok .fall, s1)) with
      | (.error e, s2) => (.error e, s2)
      | (.ok .retFalse, s2) => (.ok (.ret false), s2)
      | (.ok .fall, s2) =>
        match switchFrame iframe_audio_link s2 with
        | (.error e, s3) => (.error e, s3)
        | (.ok _, s3) =>
          match get audio_file_link_selector false s3 with
          | (.error e, s4) => (.error e, s4)
          | (.ok captcha_audio_link, s4) =>
            let captcha_audio_link_url := match captcha_audio_link with
              | .one e => e.href
              | _ => none
            match captcha_audio_link_url with
            | none => (.ok (.ret false), setTO s4 original_timeout_value)
            | some url =>
              match transcribeCall env url s4 with
              | (.error e, s5) => (.error e, s5)
              | (.ok audio_text_recognized, s5) =>
                if audio_text_recognized = "" then
                  (.ok (.ret false), setTO s5 original_timeout_value)
                else
                  match get reCaptcha_answer_text_input_selector false s5 with
                  | (.error e, s6) => (.error e, s6)
                  | (.ok answer_text_input, s6) =>
                    match sendKeysGot env answer_text_input audio_text_recognized s6 with
                    | (.error e, s7) => (.error e, s7)
                    | (.ok _, s7) =>
                      match sendKeysGot env answer_text_input keys_ENTER s7 with
                      | (.error e, s8) => (.error e, s8)
                      | (.ok _, s8) =>
                        let s9 := stepDom env .settle s8
                        match _find_iframe_with_contained_class
                            (.inr [ audio_file_link_class_name ]) s9 with
                        | (.error e, s10) => (.error e, s10)
                        | (.ok none, s10) => (.ok .brokeOut, s10)
                        | (.ok (some iframe_audio), s10) =>
                          match switchFrame (some iframe_audio) s10 with
                          | (.error e, s11) => (.error e, s11)
                          | (.ok _, s11) =>
                              captchaLoop env original_timeout_value n s11

/-- Outcome of a resolveCaptcha call: a boolean result, the implicit
Python None for an unknown captcha version (the method falls off its only
if branch), or the modelling artifact of an exhausted loop budget. -/
inductive RCOut where
  | res (b : Bool)
  | pyNone
  | spin
deriving DecidableEq

/-- resolveCaptcha for the google-v2 flow: snapshot the timeout and lower
it to 1; scan for a checkbox frame and click its checkbox when found
(pausing a settle delay afterwards); scan for the challenge frame, and
with none found restore the timeout and return True; otherwise click the
audio-entry control inside a catch-all try; then run the audio-round
loop; the break continuation switches to the top-level context, restores
the timeout and returns True.  Any other captcha version leaves the
timeout at 1 and yields Python None. -/
def resolveCaptcha (env : Env) (fuel : Nat) (captcha_version : String) (s : S) :
    Except PyErr RCOut × S :=
  let original_timeout_value := s.timeout
  let s1 := setTO s 1
  if captcha_version = google_v2 then
    match _find_iframe_with_contained_class (.inl reCaptcha_checkbox_class_name) s1 with
    | (.error e, s2) => (.error e, s2)
    | (.ok iframe_captcha_checkbox, s2) =>
      let checkboxPhase : Except PyErr Bool × S :=
        match iframe_captcha_checkbox with
        | none => (.ok false, s2)
        | some fr =>
          match switchFrame (some fr) s2 with
          | (.error e, sA) => (.error e, sA)
          | (.ok _, sA) =>
            match get reCaptcha_checkbox_selector false sA with
            | (.error e, sB) => (.error e, sB)
            | (.ok check_trigger, sB) =>
              match clickGot env check_trigger sB with
              | (.error e, sC) => (.error e, sC)
              | (.ok _, sC) => (.ok true, sC)
      match checkboxPhase with
      | (.error e, s3) => (.error e, s3)
      | (.ok reCaptcha_checkbox_triggered, s3) =>
        let s4 := if reCaptcha_checkbox_triggered then stepDom env .settle s3 else s3
        match _find_iframe_with_contained_class
            (.inr [ reCaptcha_audio_button_id_name, reCaptcha_audio_button_alt_selector ]) s4 with
        | (.error e, s5) => (.error e, s5)
        | (.ok none, s5) =>
            (.ok (.res true), setTO s5 original_timeout_value)
        | (.ok (some captcha_iframe), s5) =>
            let attempt : Except PyErr Unit × S :=
              match switchFrame (some captcha_iframe) s5 with
              | (.error e, t1) => (.error e, t1)
              | (.ok _, t1) =>
                match (match get reCaptcha_audio_button_selector false t1 with
                       | (.error .timeout, t2) =>
                           get reCaptcha_audio_button_alt_selector false t2
                       | r => r) with
                | (.error e, t2) => (.error e, t2)
                | (.ok audio_btn, t2) => clickGot env audio_btn t2
            let s6 := (match attempt with
              | (.error _, t) => t
              | (.ok _, t) => t)
            let reCaptcha_iframe_founded := true
            if reCaptcha_iframe_founded = false then
              (.ok (.res true), setTO s6 original_timeout_value)
            else
              match captchaLoop env original_timeout_value fuel s6 with
              | (.error e, s7) => (.error e, s7)
              | (.ok (.ret b), s7) => (.ok (.res b), s7)
              | (.ok .fuelOut, s7) => (.ok .spin, s7)
              | (.ok .brokeOut, s7) =>
                  (.ok (.res true), setTO (withCtx s7 .top) original_timeout_value)
  else (.ok .pyNone, s1)

/-- Holds exactly on the boolean outcomes of resolveCaptcha. -/
def isResOk : Except PyErr RCOut → Bool
  | .ok (.res _) => true
  | _ => false

/-- The urls of the transcription attempts in a trace. -/
def transcribedOf : List Ev → List String
  | [] => []
  | .transcribed u :: r => u :: transcribedOf r
  | _ :: r => transcribedOf r

/-! ## Audio transcription pipeline -/

/-- The artifact store: the set of local file names present. -/
abbrev FS := List String

def fsHas (fs : FS) (n : String) : Bool := fs.any fun m => m == n
def fsAdd (fs : FS) (n : String) : FS := n :: fs
/-- os.remove with OSError swallowed: removing an absent file is a no-op. -/
def fsRemove (fs : FS) (n : String) : FS := fs.filter fun m => m != n

/-- External collaborators of _audio_url_to_text.  subprocess.run is
invoked without check, so a failing ffmpeg never raises: it simply does
not produce the wav file. -/
structure AudioEnv where
  download : String → Except PyErr Unit
  file_name : String
  ffmpegMakesWav : Bool
  record : Except PyErr Unit
  recognize : Except PyErr String

def mp3_ext : String := ".mp3"
def wav_ext : String := ".wav"
def missing_wav_msg : String := "could not open wav"
def mp3Of (a : AudioEnv) : String := a.file_name ++ mp3_ext
def wavOf (a : AudioEnv) : String := a.file_name ++ wav_ext

/-- _audio_url_to_text.  Stream-download to the mp3 artifact, run ffmpeg
(producing the wav artifact only on success), open the wav inside a with
block (raising when it is absent, with nothing cleaned up), record, run
recognize_google with every exception swallowed into the empty string,
then remove both artifacts, swallowing removal errors.  There is no
try/finally: an exception from the download, the wav open or the record
call escapes before the removal lines run. -/
def _audio_url_to_text (a : AudioEnv) (audio_url : String) (fs : FS) :
    Except PyErr String × FS :=
  match a.download audio_url with
  | .error e => (.error e, fs)
  | .ok _ =>
    let fs1 := fsAdd fs (mp3Of a)
    let fs2 := if a.ffmpegMakesWav then fsAdd fs1 (wavOf a) else fs1
    if !fsHas fs2 (wavOf a) then
      (.error (.other missing_wav_msg), fs2)
    else
      match a.record with
      | .error e => (.error e, fs2)
      | .ok _ =>
        let audio_text_recognized := match a.recognize with
          | .ok t => t
          | .error _ => ""
        let fs3 := fsRemove fs2 (mp3Of a)
        let fs4 := fsRemove fs3 (wavOf a)
        (.ok audio_text_recognized, fs4)

/-! ## The timeout property setter over Python values -/

/-- The Python values relevant to the timeout setter. -/
inductive PyVal where
  | int (n : Int)
  | bool (b : Bool)
  | str (s : String)
  | noneV
  | float
deriving DecidableEq

/-- isinstance(value, int); Python bool is a subclass of int. -/
def PyVal.isinstance_int : PyVal → Bool
  | .int _ => true
  | .bool _ => true
  | _ => false

/-- The timeout storage: self._timeout and the value the WebDriverWait
self._wait was last rebuilt with. -/
structure TimeoutCell where
  _timeout : PyVal
  _wait : PyVal
deriving DecidableEq

/-- The timeout property setter: an int value is stored and the wait
object rebuilt from it; any other value raises ValueError before either
assignment runs. -/
def timeout_setter (value : PyVal) (st : TimeoutCell) : Except PyErr Unit × TimeoutCell :=
  if value.isinstance_int then (.ok (), { _timeout := value, _wait := value })
  else (.error .valueErr, st)

/-! ## Concrete documents used by the witnesses and counterexamples -/

def audioBtnElem : Elem := { eid := 1, text := "", href := none, displayed := true, enabled := true }
def audio_url_a : String := "https://rc.test/audio.mp3"
def audioLinkElem : Elem :=
  { eid := 2, text := "", href := some audio_url_a, displayed := true, enabled := true }
def answerInputElem : Elem := { eid := 3, text := "", href := none, displayed := true, enabled := true }
/-- Two iframe handles in discovery order: frameA the oldest, frameB the newest. -/
def frameA : Elem := { eid := 10, text := "", href := none, displayed := true, enabled := true }
def frameB : Elem := { eid := 11, text := "", href := none, displayed := true, enabled := true }

def challenge_src : String := "recaptcha-audio-button rc-audiochallenge-tdownload-link"

/-- A document whose newest frame always carries the challenge with the
same audio link: the element lookups inside frameB answer the audio
button, the audio download link and the answer input. -/
def findSame : Ctx → String → List Elem := fun c sel =>
  if c = Ctx.top ∧ sel = iframe_selector then [ frameA, frameB ]
  else if c = Ctx.frame frameB ∧ sel = reCaptcha_audio_button_selector then [ audioBtnElem ]
  else if c = Ctx.frame frameB ∧ sel = audio_file_link_selector then [ audioLinkElem ]
  else if c = Ctx.frame frameB ∧ sel = reCaptcha_answer_text_input_selector then [ answerInputElem ]
  else []

def domSame : Dom :=
  { find := findSame
  , source := fun c => if c = Ctx.frame frameB then challenge_src else ""
  , stale := fun _ => false }

def sevenFourTwo : String := "seven four two"

/-- A world that never reacts to any action: the same challenge frame and
the same audio locator persist across rounds, and transcription always
succeeds with the same text. -/
def envSame : Env := { step := fun d _ => d, transcribe := fun _ => .ok sevenFourTwo }

def s0 (d : Dom) : S := { dom := d, ctx := Ctx.top, timeout := 30, waitTimeout := 30, events := [] }


/-! ## General lemmas about the frame scanner -/

/-- get never mutates the session. -/
theorem get_state (sel : String) (ril : Bool) (s : S) : (get sel ril s).2 = s := by
  unfold get
  split
  · rfl
  · split <;> rfl

/-- The scan loop leaves the ghost trace untouched: no branch of the
frame scanner attempts a transcription or an interaction. -/
theorem scanFrames_events (pats : List String) :
    ∀ (l : List Elem) (s : S), ((scanFrames pats l s).2).events = s.events := by
  intro l
  induction l with
  | nil => intro s; rfl
  | cons f rest ih =>
    intro s
    unfold scanFrames
    dsimp only
    split
    · exact ih _
    · split
      · rfl
      · exact ih _

/-- The scan loop always ends in the top-level context. -/
theorem scanFrames_ctx (pats : List String) :
    ∀ (l : List Elem) (s : S), ((scanFrames pats l s).2).ctx = Ctx.top := by
  intro l
  induction l with
  | nil => intro s; rfl
  | cons f rest ih =>
    intro s
    unfold scanFrames
    dsimp only
    split
    · exact ih _
    · split
      · rfl
      · exact ih _

/-- The frame scanner leaves the ghost trace untouched. -/
theorem find_iframe_events (m : Sum String (List String)) (s : S) :
    ((_find_iframe_with_contained_class m s).2).events = s.events := by
  unfold _find_iframe_with_contained_class
  dsimp only
  rcases hget : get iframe_selector true (withCtx s Ctx.top) with ⟨r, s2⟩
  have hs2 : s2 = withCtx s Ctx.top := by
    have := get_state iframe_selector true (withCtx s Ctx.top)
    rw [hget] at this
    exact this
  rcases r with e | g
  · rcases e <;> simp [hs2, withCtx]
  · rcases g with e | es | _
    · simp [hs2, withCtx]
    · rw [scanFrames_events, hs2]; rfl
    · simp [hs2, withCtx]

/-- Whenever the frame scanner returns normally (a found frame or None),
the session is in the top-level context. -/
theorem find_iframe_ctx (m : Sum String (List String)) (s : S)
    (h : exceptOk ((_find_iframe_with_contained_class m s).1) = true) :
    ((_find_iframe_with_contained_class m s).2).ctx = Ctx.top := by
  unfold _find_iframe_with_contained_class at h ⊢
  dsimp only at h ⊢
  rcases hget : get iframe_selector true (withCtx s Ctx.top) with ⟨r, s2⟩
  rcases r with e | g
  · rcases e <;> simp_all [exceptOk, withCtx]
  · rcases g with e | es | _
    · simp_all [exceptOk]
    · rw [scanFrames_ctx]
    · simp_all [exceptOk]

/-! ## C6: what the frame scanner leaves behind -/

/-- C6 counterexample: in a two-iframe document whose newest frame source
matches the audio-button marker, the scanner does return that frame, but
the session context on return is the top level and not the found frame,
contrary to the claim that the scanner leaves the session positioned
inside the frame. -/
theorem c6_counterexample :
    (_find_iframe_with_contained_class (Sum.inl reCaptcha_audio_button_id_name)
        (s0 domSame)).1 = Except.ok (some frameB) ∧
    ((_find_iframe_with_contained_class (Sum.inl reCaptcha_audio_button_id_name)
        (s0 domSame)).2).ctx = Ctx.top ∧
    Ctx.top ≠ Ctx.frame frameB :=
  ⟨rfl, rfl, by decide⟩

/-- C6 (amended): whenever the frame scanner returns normally — a found
frame handle or none — the session context is the top-level document, not
the found frame; the callers switch into the returned frame themselves. -/
theorem c6_scanner_returns_at_top (m : Sum String (List String)) (s : S)
    (h : exceptOk ((_find_iframe_with_contained_class m s).1) = true) :
    ((_find_iframe_with_contained_class m s).2).ctx = Ctx.top :=
  find_iframe_ctx m s h

/-- C6 witness: the amended theorem applied to a concrete scan. -/
theorem c6_witness :
    ((_find_iframe_with_contained_class (Sum.inl reCaptcha_checkbox_class_name)
        (s0 domSame)).2).ctx = Ctx.top :=
  c6_scanner_returns_at_top (Sum.inl reCaptcha_checkbox_class_name) (s0 domSame) rfl

/-! ## C7: reverse discovery order -/

def elC7a : Elem := { eid := 21, text := "", href := none, displayed := true, enabled := true }
def elC7b : Elem := { eid := 22, text := "", href := none, displayed := true, enabled := true }
def elC7c : Elem := { eid := 23, text := "", href := none, displayed := true, enabled := true }

/-- A three-iframe document, discovery order oldest (elC7a) first, with
the given frame sources and no stale handles. -/
def dom3 (srcA srcB srcC : String) : Dom :=
  { find := fun c sel =>
      if c = Ctx.top ∧ sel = iframe_selector then [ elC7a, elC7b, elC7c ] else []
  , source := fun c =>
      if c = Ctx.frame elC7a then srcA
      else if c = Ctx.frame elC7b then srcB
      else if c = Ctx.frame elC7c then srcC
      else ""
  , stale := fun _ => false }

/-- C7: over any three-iframe document the scanner inspects the frames in
reverse discovery order and returns exactly the first frame of
[newest, middle, oldest] whose source matches the marker regex. -/
theorem c7_reverse_scan_order (srcA srcB srcC : String) (m : String) :
    (_find_iframe_with_contained_class (Sum.inl m) (s0 (dom3 srcA srcB srcC))).1 =
      Except.ok (List.find?
        (fun f => regexClassSearch [ m ] ((dom3 srcA srcB srcC).source (Ctx.frame f)))
        [ elC7c, elC7b, elC7a ]) := by
  show (scanFrames [ m ] [ elC7c, elC7b, elC7a ]
      (withCtx (s0 (dom3 srcA srcB srcC)) Ctx.top)).1 = _
  rcases hc : regexClassSearch [ m ] srcC with _ | _ <;>
  rcases hb : regexClassSearch [ m ] srcB with _ | _ <;>
  rcases ha : regexClassSearch [ m ] srcA with _ | _ <;>
    simp [scanFrames, List.find?, dom3, s0, withCtx, hc, hb, ha, elC7a, elC7b, elC7c]

/-- C7 witness: Scenario A — only the oldest of three iframes carries the
audio-button marker; the reverse-order scan skips the two newer frames
and still returns the oldest. -/
theorem c7_witness :
    (_find_iframe_with_contained_class (Sum.inl reCaptcha_audio_button_id_name)
        (s0 (dom3 challenge_src "" ""))).1 = Except.ok (some elC7a) := by
  have h := c7_reverse_scan_order challenge_src "" "" reCaptcha_audio_button_id_name
  rw [h]
  rfl

/-! ## C8: get with one match and a requested list -/

def selC8 : String := ".lone-widget"
def elemC8 : Elem := { eid := 30, text := "", href := none, displayed := true, enabled := true }
def domC8 : Dom :=
  { find := fun c sel => if c = Ctx.top ∧ sel = selC8 then [ elemC8 ] else []
  , source := fun _ => ""
  , stale := fun _ => false }

/-- C8 (code bug): with exactly one element matching the selector and
results_in_list requested, get returns the implicit Python None — no
branch of its if chain fires — instead of the one-element list its own
docstring promises. -/
theorem c8_single_match_list_request :
    (s0 domC8).dom.find Ctx.top selC8 = [ elemC8 ] ∧
    get selC8 true (s0 domC8) = (Except.ok GetRes.pyNone, s0 domC8) :=
  ⟨rfl, rfl⟩

/-! ## C9: timeout restoration in the override-taking waits -/

/-- C9: after is_element_interactable (on every path: its finally clause
always runs) and after wait_until_element_has_gone (on its success path
and on its TimeoutException path), the session timeout equals its
pre-call value. -/
theorem c9_timeout_restored (sel : String) (tmo : Option Int) (s : S)
    (hgone : (wait_until_element_has_gone sel tmo s).1 = Except.ok () ∨
             (wait_until_element_has_gone sel tmo s).1 = Except.error PyErr.timeout) :
    ((is_element_interactable sel tmo s).2).timeout = s.timeout ∧
    ((wait_until_element_has_gone sel tmo s).2).timeout = s.timeout := by
  constructor
  · rfl
  · unfold wait_until_element_has_gone at hgone ⊢
    dsimp only at hgone ⊢
    rcases hk : _get_selector_type sel with _ | k
    · rcases hgone with h1 | h1 <;> rw [hk] at h1 <;> simp at h1
    · dsimp only at hgone ⊢
      split <;> split <;> rfl

def domEmpty : Dom := { find := fun _ _ => [], source := fun _ => "", stale := fun _ => false }
def selGoneW : String := "#gone-widget"

/-- C9 witness: a concrete call with a timeout override of 5 on a
document where the element is already gone. -/
theorem c9_witness :
    ((is_element_interactable selGoneW (some 5) (s0 domEmpty)).2).timeout =
        (s0 domEmpty).timeout ∧
    ((wait_until_element_has_gone selGoneW (some 5) (s0 domEmpty)).2).timeout =
        (s0 domEmpty).timeout :=
  c9_timeout_restored selGoneW (some 5) (s0 domEmpty) (Or.inl rfl)

/-! ## C10: the timeout property setter -/

/-- C10: a non-int value makes the setter raise ValueError with both the
stored timeout and the wait object untouched; an int value updates the
stored timeout and rebuilds the wait object with the new value. -/
theorem c10_timeout_setter (value : PyVal) (st : TimeoutCell) :
    (value.isinstance_int = false →
      timeout_setter value st = (Except.error PyErr.valueErr, st)) ∧
    (value.isinstance_int = true →
      timeout_setter value st = (Except.ok (), { _timeout := value, _wait := value })) := by
  constructor
  · intro h; simp [timeout_setter, h]
  · intro h; simp [timeout_setter, h]

def tc0 : TimeoutCell := { _timeout := PyVal.int 30, _wait := PyVal.int 30 }

/-- C10 witness: the setter theorem applied to a string value and to an
int value. -/
theorem c10_witness :
    timeout_setter (PyVal.str "soon") tc0 = (Except.error PyErr.valueErr, tc0) ∧
    timeout_setter (PyVal.int 5) tc0 =
      (Except.ok (), { _timeout := PyVal.int 5, _wait := PyVal.int 5 }) :=
  ⟨(c10_timeout_setter (PyVal.str "soon") tc0).1 rfl,
   (c10_timeout_setter (PyVal.int 5) tc0).2 rfl⟩

/-! ## C5: transcription pipeline cleanup -/

theorem fsHas_iff (l : FS) (n : String) : fsHas l n = true ↔ n ∈ l := by
  unfold fsHas
  rw [List.any_eq_true]
  constructor
  · rintro ⟨x, hx, hb⟩
    rw [beq_iff_eq] at hb
    rw [hb] at hx
    exact hx
  · intro h
    exact ⟨n, h, beq_self_eq_true n⟩

theorem fsHas_remove_self (l : FS) (n : String) : fsHas (fsRemove l n) n = false := by
  rw [Bool.eq_false_iff, Ne, fsHas_iff]
  simp [fsRemove, List.mem_filter]

theorem fsHas_remove_other (l : FS) (m n : String)
    (h : fsHas (fsRemove l m) n = true) : fsHas l n = true := by
  rw [fsHas_iff]
  rw [fsHas_iff] at h
  simp only [fsRemove] at h
  exact (List.mem_filter.mp h).1

theorem fsHas_double_remove (l : FS) (m n : String) :
    fsHas (fsRemove (fsRemove l m) n) m = false := by
  rw [Bool.eq_false_iff]
  intro h
  have h2 := fsHas_remove_other (fsRemove l m) n m h
  rw [fsHas_remove_self] at h2
  exact Bool.false_ne_true h2

/-- A run in which the ffmpeg transcode silently fails: subprocess.run is
called without check, so no exception is raised and no wav appears. -/
def aenvBad : AudioEnv :=
  { download := fun _ => .ok ()
  , file_name := "bm_captcha_12345"
  , ffmpegMakesWav := false
  , record := .ok ()
  , recognize := .ok "ninety one" }

/-- C5 counterexample: when the transcode fails to produce the wav file,
opening the wav raises and the exception escapes with the downloaded mp3
artifact still present — cleanup is not guaranteed on every exit path,
there being no try/finally around the pipeline. -/
theorem c5_counterexample :
    (_audio_url_to_text aenvBad audio_url_a []).1 =
        Except.error (PyErr.other missing_wav_msg) ∧
    fsHas ((_audio_url_to_text aenvBad audio_url_a []).2) (mp3Of aenvBad) = true :=
  ⟨rfl, rfl⟩

/-- C5 (amended): on the paths where every acquisition step succeeds —
download ok, transcode produced the wav, record ok — the call returns
normally, with the empty string whenever the recognition call fails, and
both temporary artifacts are deleted; an exception in an intermediate
acquisition step instead escapes without cleanup. -/
theorem c5_cleanup_on_normal_paths (a : AudioEnv) (url : String) (fs : FS)
    (hd : a.download url = Except.ok ())
    (hf : a.ffmpegMakesWav = true)
    (hr : a.record = Except.ok ()) :
    exceptOk ((_audio_url_to_text a url fs).1) = true ∧
    (∀ e, a.recognize = Except.error e →
        (_audio_url_to_text a url fs).1 = Except.ok "") ∧
    fsHas ((_audio_url_to_text a url fs).2) (mp3Of a) = false ∧
    fsHas ((_audio_url_to_text a url fs).2) (wavOf a) = false := by
  have key : _audio_url_to_text a url fs =
      (Except.ok (match a.recognize with | .ok t => t | .error _ => ""),
       fsRemove (fsRemove (fsAdd (fsAdd fs (mp3Of a)) (wavOf a)) (mp3Of a)) (wavOf a)) := by
    simp [_audio_url_to_text, hd, hf, hr, fsHas, fsAdd]
  rw [key]
  refine ⟨rfl, ?_, ?_, ?_⟩
  · intro e he
    rw [he]
  · exact fsHas_double_remove _ _ _
  · exact fsHas_remove_self _ _

/-- A run in which acquisition succeeds and recognition fails. -/
def aenvGood : AudioEnv :=
  { download := fun _ => .ok ()
  , file_name := "bm_captcha_54321"
  , ffmpegMakesWav := true
  , record := .ok ()
  , recognize := .error (PyErr.other "unintelligible") }

/-- C5 witness: the amended theorem at a run whose recognition fails:
empty text is returned and both artifacts are gone. -/
theorem c5_witness :
    (_audio_url_to_text aenvGood audio_url_a []).1 = Except.ok "" ∧
    fsHas ((_audio_url_to_text aenvGood audio_url_a []).2) (mp3Of aenvGood) = false ∧
    fsHas ((_audio_url_to_text aenvGood audio_url_a []).2) (wavOf aenvGood) = false := by
  have h := c5_cleanup_on_normal_paths aenvGood audio_url_a [] rfl rfl rfl
  exact ⟨h.2.1 (PyErr.other "unintelligible") rfl, h.2.2.1, h.2.2.2⟩

/-! ## C2: no progress-termination on stalled locators -/

/-- One audio round against the stalled document: the loop re-enters the
next iteration having transcribed the same locator once more. -/
theorem sameStep (orig : Int) (n : Nat) (c : Ctx) (t w : Int) (ev : List Ev) :
    captchaLoop envSame orig (n + 1)
        { dom := domSame, ctx := c, timeout := t, waitTimeout := w, events := ev } =
    captchaLoop envSame orig n
        { dom := domSame, ctx := Ctx.frame frameB, timeout := t, waitTimeout := w,
          events := ((ev ++ [ Ev.transcribed audio_url_a ])
            ++ [ Ev.sent 3 sevenFourTwo ]) ++ [ Ev.sent 3 keys_ENTER ] } := rfl

/-- C2 (amended): the loop compares no locators; it exits Solved only
when a re-scan finds no audio-link frame.  Against a stalled document
where every round resolves the identical audio locator, the audio-round
loop never terminates of its own accord: it exhausts any iteration
budget instead of exiting with Solved. -/
theorem c2_stalled_locator_loops (orig : Int) (n : Nat) :
    ∀ (c : Ctx) (t w : Int) (ev : List Ev),
      (captchaLoop envSame orig n
        { dom := domSame, ctx := c, timeout := t, waitTimeout := w, events := ev }).1 =
      Except.ok LoopRes.fuelOut := by
  induction n with
  | zero => intro c t w ev; rfl
  | succ n ih =>
      intro c t w ev
      rw [sameStep]
      exact ih _ _ _ _

/-- C2 witness: the amended theorem at a concrete budget and entry
state. -/
theorem c2_witness :
    (captchaLoop envSame 30 4
      { dom := domSame, ctx := Ctx.top, timeout := 1, waitTimeout := 1, events := [] }).1 =
    Except.ok LoopRes.fuelOut :=
  c2_stalled_locator_loops 30 4 Ctx.top 1 1 []

/-- C2 counterexample: with budget for three rounds, rounds one and two
resolve the identical locator, yet the loop runs a third round on the
same locator and ends only by budget exhaustion; the engine does not
return true. -/
theorem c2_counterexample :
    (resolveCaptcha envSame 3 google_v2 (s0 domSame)).1 = Except.ok RCOut.spin ∧
    transcribedOf ((resolveCaptcha envSame 3 google_v2 (s0 domSame)).2.events) =
      [ audio_url_a, audio_url_a, audio_url_a ] :=
  ⟨rfl, rfl⟩

/-! ## C1 and C4: the no-audio-link branch of an audio round -/

/-- A document with a challenge frame (audio button in the newest frame),
no audio-link marker anywhere, and the given modal-header element at the
top level. -/
def domNoLink (e : Elem) : Dom :=
  { find := fun c sel =>
      if c = Ctx.top ∧ sel = iframe_selector then [ frameA, frameB ]
      else if c = Ctx.frame frameB ∧ sel = reCaptcha_audio_button_selector then [ audioBtnElem ]
      else if c = Ctx.top ∧ sel = reCaptcha_modal_header_selector then [ e ]
      else []
  , source := fun c => if c = Ctx.frame frameB then reCaptcha_audio_button_id_name else ""
  , stale := fun _ => false }

def banElemOther : Elem :=
  { eid := 5, text := "Check the new pictures", href := none, displayed := true, enabled := true }

def banElemBanned : Elem :=
  { eid := 6, text := "Please try again later", href := none, displayed := true, enabled := true }

def banElemMoment : Elem :=
  { eid := 7, text := "One moment", href := none, displayed := true, enabled := true }

/-- C1 (amended): in an audio round where no frame holds the audio-link
marker and the modal header is a single element whose lowercased text
contains a block phrase, the round returns False with the timeout
restored and no transcription attempted. -/
theorem c1_blocked_round (env : Env) (orig : Int) (n : Nat) (s s1 : S) (e : Elem)
    (h1 : _find_iframe_with_contained_class (Sum.inl audio_file_link_class_name) s =
        (Except.ok none, s1))
    (h2 : get reCaptcha_modal_header_selector false s1 = (Except.ok (GetRes.one e), s1))
    (h3 : banned_phrases.any (fun phrase => strContains (pyLower e.text) phrase) = true) :
    captchaLoop env orig (n + 1) s = (Except.ok (LoopRes.ret false), setTO s1 orig) ∧
    (setTO s1 orig).events = s.events := by
  constructor
  · unfold captchaLoop
    rw [h1]
    dsimp only
    rw [if_pos rfl]
    unfold banCheck
    rw [h2]
    dsimp only
    rw [h3]
    rfl
  · have h4 := find_iframe_events (Sum.inl audio_file_link_class_name) s
    rw [h1] at h4
    exact h4

/-- The audio-round entry state used by the C1 witness: mid-resolution,
inside the challenge frame, with the reduced timeout installed. -/
def sBanned : S :=
  { dom := domNoLink banElemBanned, ctx := Ctx.frame frameB, timeout := 1, waitTimeout := 1,
    events := [] }

def sBanned1 : S := withCtx sBanned Ctx.top

/-- C1 witness: the Blocked round applied to the concrete banned
document. -/
theorem c1_witness :
    captchaLoop envSame 30 1 sBanned = (Except.ok (LoopRes.ret false), setTO sBanned1 30) ∧
    (setTO sBanned1 30).events = sBanned.events :=
  c1_blocked_round envSame 30 0 sBanned sBanned1 banElemBanned rfl rfl rfl

/-- C1 counterexample: when the modal header text contains no block
phrase, the call does not return true — the code falls through, switches
on the Python None frame reference back to the top level, looks the
audio link up there and raises TimeoutException. -/
theorem c1_counterexample :
    (resolveCaptcha envSame 1 google_v2 (s0 (domNoLink banElemOther))).1 =
        Except.error PyErr.timeout ∧
    (resolveCaptcha envSame 1 google_v2 (s0 (domNoLink banElemOther))).1 ≠
        Except.ok (RCOut.res true) := by
  refine ⟨rfl, ?_⟩
  rw [show (resolveCaptcha envSame 1 google_v2 (s0 (domNoLink banElemOther))).1 =
      Except.error PyErr.timeout from rfl]
  simp

/-- C4 (code bug): a challenge-failure case — no audio-link frame and a
ban-notice element present whose text is not a block phrase — makes
resolveCaptcha raise TimeoutException past its entry point, leaking the
lowered timeout, although its own docstring declares Raises: None and a
boolean return. -/
theorem c4_raises_on_nonmatching_notice :
    (resolveCaptcha envSame 2 google_v2 (s0 (domNoLink banElemMoment))).1 =
        Except.error PyErr.timeout ∧
    ((resolveCaptcha envSame 2 google_v2 (s0 (domNoLink banElemMoment))).2).timeout = 1 :=
  ⟨rfl, rfl⟩

/-! ## C3: state at the terminal transitions -/

/-- A world identical to the stalled one except that transcription always
returns empty text. -/
def envEmptyText : Env := { step := fun d _ => d, transcribe := fun _ => .ok "" }

/-- C3 counterexample: an audio round whose transcription is empty
returns false with the session context still inside the audio-link frame
(the code restores only the timeout, not the context, on that path). -/
theorem c3_counterexample :
    (resolveCaptcha envEmptyText 1 google_v2 (s0 domSame)).1 = Except.ok (RCOut.res false) ∧
    ((resolveCaptcha envEmptyText 1 google_v2 (s0 domSame)).2).ctx = Ctx.frame frameB ∧
    Ctx.frame frameB ≠ Ctx.top :=
  ⟨rfl, rfl, by decide⟩

/-- The ban-notice block restores the timeout whenever it returns
False. -/
theorem banCheck_retFalse (orig : Int) (s s2 : S)
    (h : banCheck orig s = (Except.ok BanOut.retFalse, s2)) :
    s2.timeout = orig ∧ s2.waitTimeout = orig := by
  unfold banCheck at h
  rcases hg : get reCaptcha_modal_header_selector false s with ⟨r, s1⟩
  rw [hg] at h
  rcases r with e | g
  · rcases e <;>
      first
        | (injection h with hA hB; subst hB; exact ⟨rfl, rfl⟩)
        | simp at h
  · rcases g with e2 | es | _
    · dsimp only at h
      split at h
      · injection h with hA hB; subst hB; exact ⟨rfl, rfl⟩
      · simp at h
    · simp at h
    · simp at h

/-- Every return statement inside the audio-round loop restores the
timeout first: whenever a round returns a boolean, the final state holds
the original timeout (stored value and rebuilt wait alike). -/
theorem captchaLoop_ret_restores (env : Env) (orig : Int) :
    ∀ (n : Nat) (s : S) (b : Bool) (s2 : S),
      captchaLoop env orig n s = (Except.ok (LoopRes.ret b), s2) →
      s2.timeout = orig ∧ s2.waitTimeout = orig := by
  intro n
  induction n with
  | zero =>
      intro s b s2 h
      simp [captchaLoop] at h
  | succ n ih =>
      intro s b s2 h
      unfold captchaLoop at h
      rcases hf1 : _find_iframe_with_contained_class (Sum.inl audio_file_link_class_name) s
        with ⟨r1, s1⟩
      rw [hf1] at h
      rcases r1 with e1 | io
      · simp at h
      · dsimp only at h
        rcases hban : (if io = none then banCheck orig s1 else (Except.ok BanOut.fall, s1))
          with ⟨r2, s2x⟩
        rw [hban] at h
        rcases r2 with e2 | bo
        · simp at h
        · rcases bo with _ | _
          · dsimp only at h
            injection h with hA hB
            subst hB
            split at hban
            · exact banCheck_retFalse orig s1 s2x hban
            · simp at hban
          · dsimp only at h
            rcases hsw : switchFrame io s2x with ⟨r3, s3⟩
            rw [hsw] at h
            rcases r3 with e3 | u3
            · simp at h
            · dsimp only at h
              rcases hg2 : get audio_file_link_selector false s3 with ⟨r4, s4⟩
              rw [hg2] at h
              rcases r4 with e4 | g4
              · simp at h
              · rcases g4 with e5 | es5 | _
                · dsimp only at h
                  rcases hh : e5.href with _ | url
                  · rw [hh] at h
                    dsimp only at h
                    injection h with hA hB
                    subst hB
                    exact ⟨rfl, rfl⟩
                  · rw [hh] at h
                    dsimp only at h
                    rcases ht : transcribeCall env url s4 with ⟨r6, s5⟩
                    rw [ht] at h
                    rcases r6 with e6 | txt
                    · simp at h
                    · dsimp only at h
                      split at h
                      · injection h with hA hB
                        subst hB
                        exact ⟨rfl, rfl⟩
                      · rcases hg3 : get reCaptcha_answer_text_input_selector false s5
                          with ⟨r7, s6⟩
                        rw [hg3] at h
                        rcases r7 with e7 | g7
                        · simp at h
                        · dsimp only at h
                          rcases hk1 : sendKeysGot env g7 txt s6 with ⟨r8, s7⟩
                          rw [hk1] at h
                          rcases r8 with e8 | u8
                          · simp at h
                          · dsimp only at h
                            rcases hk2 : sendKeysGot env g7 keys_ENTER s7 with ⟨r9, s8⟩
                            rw [hk2] at h
                            rcases r9 with e9 | u9
                            · simp at h
                            · dsimp only at h
                              rcases hf2 : _find_iframe_with_contained_class
                                  (Sum.inr [ audio_file_link_class_name ])
                                  (stepDom env Act.settle s8) with ⟨r10, s10⟩
                              rw [hf2] at h
                              rcases r10 with e10 | oio
                              · simp at h
                              · rcases oio with _ | fr
                                · simp at h
                                · dsimp only at h
                                  rcases hw2 : switchFrame (some fr) s10 with ⟨r11, s11⟩
                                  rw [hw2] at h
                                  rcases r11 with e11 | u11
                                  · simp at h
                                  · dsimp only at h
                                    exact ih s11 b s2 h
                · dsimp only at h
                  injection h with hA hB
                  subst hB
                  exact ⟨rfl, rfl⟩
                · dsimp only at h
                  injection h with hA hB
                  subst hB
                  exact ⟨rfl, rfl⟩

/-- C3 (amended): on every boolean return of resolveCaptcha the session
timeout (and the wait it rebuilds) equals the pre-call value; the
document-context half of the original claim fails on the mid-round
Failed returns, which leave the context inside the audio-link frame. -/
theorem c3_timeout_restored_on_returns (env : Env) (fuel : Nat) (v : String) (s : S)
    (h : isResOk ((resolveCaptcha env fuel v s).1) = true) :
    ((resolveCaptcha env fuel v s).2).timeout = s.timeout ∧
    ((resolveCaptcha env fuel v s).2).waitTimeout = s.timeout := by
  rcases hr : resolveCaptcha env fuel v s with ⟨r, s2⟩
  rw [hr] at h
  dsimp only at h ⊢
  unfold resolveCaptcha at hr
  dsimp only at hr
  repeat' split at hr
  all_goals injection hr with hA hB
  all_goals subst hB
  all_goals rw [← hA] at h
  all_goals
    first
      | exact ⟨rfl, rfl⟩
      | (rename_i heq; exact captchaLoop_ret_restores env s.timeout fuel _ _ _ heq)
      | simp [isResOk] at h

/-- C3 witness: a run with no challenge returns true with the timeout
back at its pre-call value. -/
theorem c3_witness :
    ((resolveCaptcha envSame 1 google_v2 (s0 domEmpty)).2).timeout = (s0 domEmpty).timeout ∧
    ((resolveCaptcha envSame 1 google_v2 (s0 domEmpty)).2).waitTimeout =
        (s0 domEmpty).timeout :=
  c3_timeout_restored_on_returns envSame 1 google_v2 (s0 domEmpty) rfl

end SBM
